import Mathlib

/-!
Verification of the `v1/trace/signoz` tracing wrapper.

Shallow embedding of `spantype.go` and `signoz.go`: the span-type
configuration (functional-options fold), the span-kind lookup table, the
attribute derivation, and the effect traces of `CreateSpan`,
`TraceHttpRequest` and `TraceHttpResponse`.  Interaction with the
external OpenTelemetry SDK is modelled as explicit effect values
(span actions, events); `json.Marshal` outcomes are passed in as
`Except` values; `log.Fatal` is modelled as a distinguished result.
-/

namespace Signoz

/-- `KeyValue` (signoz.go): a string-to-string pair used for span
attributes and event fields. -/
structure KeyValue where
  key : String
  value : String
deriving DecidableEq, Repr

/-- `SpanType` enum (spantype.go lines 8-17). -/
inductive SpanType where
  | Unspecified
  | Internal
  | Server
  | Client
  | Producer
  | Consumer
deriving DecidableEq, Repr, Fintype

/-- The external SDK's `trace.SpanKind` enum, as referenced by
`spanTypeMapper` in spantype.go. -/
inductive SpanKind where
  | Unspecified
  | Internal
  | Server
  | Client
  | Producer
  | Consumer
deriving DecidableEq, Repr, Fintype

/-- `DatabasePlatform` is a string type (spantype.go line 19). -/
abbrev DatabasePlatform := String

/-- `Other` constant (spantype.go line 22). -/
def Other : DatabasePlatform := "other_sql"

/-- `MySQL` constant (spantype.go line 23). -/
def MySQL : DatabasePlatform := "mysql"

/-- `MariaDB` constant (spantype.go line 24). -/
def MariaDB : DatabasePlatform := "mariadb"

/-- `Redis` constant (spantype.go line 25). -/
def Redis : DatabasePlatform := "redis"

/-- `ExternalURL` is a string type (spantype.go line 28). -/
abbrev ExternalURL := String

/-- `spanTypeConfig` struct (spantype.go lines 34-38). -/
structure spanTypeConfig where
  SpanType : Signoz.SpanType
  DatabasePlatform : Signoz.DatabasePlatform
  ExternalURL : Signoz.ExternalURL
deriving DecidableEq, Repr

/-- `SpanTypeOption` (spantype.go lines 30-32, 40-44): the `config`
function type whose `apply` method is plain application. -/
def SpanTypeOption := spanTypeConfig → spanTypeConfig

/-- The `apply` method of a `SpanTypeOption` (spantype.go lines 42-44). -/
def SpanTypeOption.apply (o : SpanTypeOption) (c : spanTypeConfig) : spanTypeConfig :=
  o c

/-- `spanTypeMapper` (spantype.go lines 46-55): lookup table from the
internal `SpanType` enum to the SDK's span kind. -/
def spanTypeMapper : SpanType → SpanKind
  | .Unspecified => .Unspecified
  | .Internal => .Internal
  | .Server => .Server
  | .Client => .Client
  | .Producer => .Producer
  | .Consumer => .Consumer

/-- `DatabaseCalls` option (spantype.go lines 57-63): sets
`SpanType = Internal` and records the platform. -/
def DatabaseCalls (databasePlatform : DatabasePlatform) : SpanTypeOption :=
  fun config =>
    { config with SpanType := .Internal, DatabasePlatform := databasePlatform }

/-- `ExternalCalls` option (spantype.go lines 65-71): sets
`SpanType = Server` and records the URL. -/
def ExternalCalls (externalURL : ExternalURL) : SpanTypeOption :=
  fun config =>
    { config with SpanType := .Server, ExternalURL := externalURL }

/-- The attribute key of `semconv.DBSystemMySQL` (semconv v1.4.0:
`DBSystemKey = attribute.Key("db.system")`). -/
def DBSystemKey : String := "db.system"

/-- `semconv.HTTPURLKey` (semconv v1.4.0: `attribute.Key("http.url")`). -/
def HTTPURLKey : String := "http.url"

/-- `getSpanTypeAttributes` (spantype.go lines 73-93).  The Go function
takes a `*spanTypeConfig`, modelled as `Option`: `nil` yields a nil
slice (`none`); otherwise the attribute list for the configured span
type. -/
def getSpanTypeAttributes : Option spanTypeConfig → Option (List KeyValue)
  | none => none
  | some config =>
    some (match config.SpanType with
      | .Internal => [⟨DBSystemKey, config.DatabasePlatform⟩]
      | .Server => [⟨HTTPURLKey, config.ExternalURL⟩]
      | _ => [])

/-- The initial configuration built in `CreateSpan`
(signoz.go lines 105-109): `Unspecified` span type, empty platform and
URL strings. -/
def defaultConfig : spanTypeConfig :=
  { SpanType := .Unspecified, DatabasePlatform := "", ExternalURL := "" }

/-- The option loop of `CreateSpan` (signoz.go lines 110-112): apply
each option in order to the default configuration. -/
def applyOpts (opts : List SpanTypeOption) : spanTypeConfig :=
  opts.foldl (fun config opt => opt.apply config) defaultConfig

/-- The classifier contract realised by `CreateSpan` together with
`spanTypeMapper` and `getSpanTypeAttributes`: fold the options, map the
final span type to a span kind, derive the attributes. -/
def classify (opts : List SpanTypeOption) : SpanKind × List KeyValue :=
  let config := applyOpts opts
  (spanTypeMapper config.SpanType, (getSpanTypeAttributes (some config)).getD [])

/-- Observable actions performed on a span, in order, by the wrapper
(calls into the SDK made by signoz.go). -/
inductive SpanAction where
  | start (kind : SpanKind)
  | setStatusError (msg : String)
  | recordError (msg : String)
  | setAttributes (attrs : List KeyValue)
deriving DecidableEq, Repr

/-- `CreateSpan` (signoz.go lines 104-126) as the ordered list of span
actions it performs.  The Go `err error` argument is modelled as
`Option String` carrying `err.Error()`.  The span is started with the
mapped kind; a non-nil error sets the error status and records the
error before `getSpanTypeAttributes` is consulted; the attributes are
attached when the returned slice is non-nil. -/
def CreateSpan (err : Option String) (opts : List SpanTypeOption) : List SpanAction :=
  let config := applyOpts opts
  [SpanAction.start (spanTypeMapper config.SpanType)]
    ++ (match err with
        | some msg => [SpanAction.setStatusError msg, SpanAction.recordError msg]
        | none => [])
    ++ (match getSpanTypeAttributes (some config) with
        | some attributes => [SpanAction.setAttributes attributes]
        | none => [])

/-- An event added to a span (`AddEvent`): a name and its attributes. -/
structure Event where
  name : String
  attributes : List KeyValue
deriving DecidableEq, Repr

/-- The observable effect of `TraceHttpRequest`: one event added to the
span and one batch of span-level attributes set. -/
structure HttpRequestTrace where
  event : Event
  spanAttributes : List KeyValue
deriving DecidableEq, Repr

/-- `TraceHttpRequest` (signoz.go lines 161-187): adds a "Request"
event whose attributes are `Token`, `Query Param` and `Payload`, then
sets a span-level `userId` attribute. -/
def TraceHttpRequest (token userId queryParam payload : String) : HttpRequestTrace :=
  { event :=
      { name := "Request"
        attributes :=
          [⟨"Token", token⟩, ⟨"Query Param", queryParam⟩, ⟨"Payload", payload⟩] }
    spanAttributes := [⟨"userId", userId⟩] }

/-- Result of `TraceHttpResponse`: either the process terminates via
`log.Fatal` or a "Response" event is added to the span. -/
inductive HttpResponseResult where
  | fatal (msg : String)
  | event (e : Event)
deriving DecidableEq, Repr

/-- `strconv.Itoa` on the response code: decimal rendering of an
integer, with a leading minus sign when negative. -/
def strconvItoa (n : Int) : String := toString n

/-- `TraceHttpResponse` (signoz.go lines 189-221).  The outcomes of the
two `json.Marshal` calls (on `data` and on `errors`) are passed in as
`Except` values; a marshalling error aborts the process (`log.Fatal`),
otherwise a "Response" event carries the code, message and the two
serialized blobs. -/
def TraceHttpResponse (code : Int) (message : String)
    (dataMarshal errorsMarshal : Except String String) : HttpResponseResult :=
  match dataMarshal with
  | .error e => .fatal e
  | .ok dataString =>
    match errorsMarshal with
    | .error e => .fatal e
    | .ok errorsString =>
      .event
        { name := "Response"
          attributes :=
            [⟨"Code", strconvItoa code⟩, ⟨"Message", message⟩,
             ⟨"Data", dataString⟩, ⟨"Errors", errorsString⟩] }

/-- `strings.ToLower` as used in `InitTracer`: character-wise case
folding of the string. -/
def stringsToLower (s : String) : String :=
  ⟨s.data.map Char.toLower⟩

/-- The transport selection of `InitTracer` (signoz.go lines 63-70):
`true` when the TLS-credential option is chosen, `false` when the
plaintext `WithInsecure` option is chosen. -/
def initTracerSelectsTLS (insecure : String) : Bool :=
  stringsToLower insecure == "false" || insecure == "0" || stringsToLower insecure == "f"

/-- C1: `InitTracer` selects the TLS transport exactly when the
insecure flag lowercases to "false" or "f" or equals "0"; in
particular "false", "FALSE", "0", "f", "F" select TLS, while "true",
"", "yes", "1" select the plaintext transport. -/
theorem initTracer_insecure_parsing :
    (∀ s : String,
      initTracerSelectsTLS s = true
        ↔ (stringsToLower s = "false" ∨ stringsToLower s = "f" ∨ s = "0"))
    ∧ initTracerSelectsTLS "false" = true
    ∧ initTracerSelectsTLS "FALSE" = true
    ∧ initTracerSelectsTLS "0" = true
    ∧ initTracerSelectsTLS "f" = true
    ∧ initTracerSelectsTLS "F" = true
    ∧ initTracerSelectsTLS "true" = false
    ∧ initTracerSelectsTLS "" = false
    ∧ initTracerSelectsTLS "yes" = false
    ∧ initTracerSelectsTLS "1" = false := by
  refine ⟨fun s => ?_, by decide, by decide, by decide, by decide, by decide,
    by decide, by decide, by decide, by decide⟩
  simp only [initTracerSelectsTLS, Bool.or_eq_true, beq_iff_eq]
  tauto

/-- C2 counterexample: the "Request" event recorded by
`TraceHttpRequest` carries only three attributes (Token, Query Param,
Payload); the userId "user-1" does not appear among the event
attributes, refuting the claim that the event attributes are all four
fields. -/
theorem traceHttpRequest_event_lacks_userId :
    (TraceHttpRequest "tok" "user-1" "q" "p").event.attributes
        = [⟨"Token", "tok"⟩, ⟨"Query Param", "q"⟩, ⟨"Payload", "p"⟩]
    ∧ KeyValue.mk "userId" "user-1" ∉ (TraceHttpRequest "tok" "user-1" "q" "p").event.attributes
    ∧ (TraceHttpRequest "tok" "user-1" "q" "p").event.attributes.length = 3 := by
  exact ⟨rfl, by decide, rfl⟩

/-- C2 (amended): `TraceHttpRequest` records a "Request" event whose
event attributes are the token (key "Token"), query parameter (key
"Query Param") and payload (key "Payload") — the userId is not an event
attribute — and separately sets the span-level attribute "userId"
carrying the caller's identity. -/
theorem traceHttpRequest_event_and_attribute
    (token userId queryParam payload : String) :
    (TraceHttpRequest token userId queryParam payload).event.name = "Request"
    ∧ (TraceHttpRequest token userId queryParam payload).event.attributes
        = [⟨"Token", token⟩, ⟨"Query Param", queryParam⟩, ⟨"Payload", payload⟩]
    ∧ (TraceHttpRequest token userId queryParam payload).spanAttributes
        = [⟨"userId", userId⟩] :=
  ⟨rfl, rfl, rfl⟩

/-- C3: the span-type configuration is the strict left-to-right fold of
the options over the default configuration (appending an option applies
it to the folded state of the preceding ones), and mixing
`DatabaseCalls`/`ExternalCalls` classifies exactly as whichever option
applied last: the classification of the two-option mixtures equals the
classification of the last option alone, with the final `SpanType`
dictated by that last option. -/
theorem spanTypeOptions_fold_last_writer_wins :
    (∀ (opts : List SpanTypeOption) (o : SpanTypeOption),
      applyOpts (opts ++ [o]) = o.apply (applyOpts opts))
    ∧ (∀ (p : DatabasePlatform) (u : ExternalURL),
        classify [ExternalCalls u, DatabaseCalls p] = classify [DatabaseCalls p])
    ∧ (∀ (p : DatabasePlatform) (u : ExternalURL),
        classify [DatabaseCalls p, ExternalCalls u] = classify [ExternalCalls u])
    ∧ (∀ (p : DatabasePlatform) (u : ExternalURL),
        (applyOpts [ExternalCalls u, DatabaseCalls p]).SpanType = SpanType.Internal
        ∧ (applyOpts [DatabaseCalls p, ExternalCalls u]).SpanType = SpanType.Server) := by
  refine ⟨fun opts o => ?_, fun p u => rfl, fun p u => rfl, fun p u => ⟨rfl, rfl⟩⟩
  simp [applyOpts, SpanTypeOption.apply, List.foldl_append]

/-- C4: the empty option sequence yields the default configuration —
SpanType Unspecified, empty database platform and external URL — and
classifies to span kind Unspecified with an empty attribute list. -/
theorem classify_empty :
    classify [] = (SpanKind.Unspecified, [])
    ∧ applyOpts []
        = { SpanType := .Unspecified, DatabasePlatform := "", ExternalURL := "" } :=
  ⟨rfl, rfl⟩

/-- C5: `classify [DatabaseCalls MySQL]` yields span kind Internal and
exactly one attribute with the semantic-convention key "db.system" and
value "mysql". -/
theorem classify_databaseCalls_mysql :
    classify [DatabaseCalls MySQL] = (SpanKind.Internal, [⟨"db.system", "mysql"⟩])
    ∧ DBSystemKey = "db.system" :=
  ⟨rfl, rfl⟩

/-- C6: for every URL `u`, `classify [ExternalCalls u]` yields span
kind Server and exactly one attribute with key "http.url" and value
`u`; in particular for `u = "https://example.com"`. -/
theorem classify_externalCalls (u : ExternalURL) :
    classify [ExternalCalls u] = (SpanKind.Server, [⟨"http.url", u⟩])
    ∧ HTTPURLKey = "http.url"
    ∧ classify [ExternalCalls "https://example.com"]
        = (SpanKind.Server, [⟨"http.url", "https://example.com"⟩]) :=
  ⟨rfl, rfl, rfl⟩

/-- C7: `CreateSpan` starts the span with the classifier's derived span
kind; when a non-nil error is supplied, it sets the error status and
records the error before attaching the classifier-derived attributes;
when the error is nil, no error status is set (the error segment of the
action trace is empty). -/
theorem createSpan_error_before_attributes
    (err : Option String) (opts : List SpanTypeOption) :
    CreateSpan err opts =
      SpanAction.start (classify opts).1 ::
        ((match err with
          | some msg => [SpanAction.setStatusError msg, SpanAction.recordError msg]
          | none => []) ++ [SpanAction.setAttributes (classify opts).2]) := by
  cases err <;> rfl

/-- C8: `TraceHttpResponse` terminates the process fatally when either
JSON serialization (of data or of errors) fails; otherwise it records a
"Response" event whose attributes are the code rendered as a decimal
string, the message, and the two serialized blobs. -/
theorem traceHttpResponse_fatal_or_event :
    (∀ (code : Int) (message e : String) (em : Except String String),
      TraceHttpResponse code message (.error e) em = .fatal e)
    ∧ (∀ (code : Int) (message d e : String),
      TraceHttpResponse code message (.ok d) (.error e) = .fatal e)
    ∧ (∀ (code : Int) (message d er : String),
      TraceHttpResponse code message (.ok d) (.ok er) =
        .event { name := "Response"
                 attributes := [⟨"Code", strconvItoa code⟩, ⟨"Message", message⟩,
                                ⟨"Data", d⟩, ⟨"Errors", er⟩] })
    ∧ strconvItoa 200 = "200" ∧ strconvItoa (-1) = "-1" :=
  ⟨fun _ _ _ _ => rfl, fun _ _ _ _ => rfl, fun _ _ _ _ => rfl, rfl, rfl⟩

/-- C9: `spanTypeMapper` is the fixed total identity lookup on the six
span types: Unspecified, Internal, Server, Client, Producer, Consumer
each map to the same-named span kind, and the mapping is 1:1. -/
theorem spanTypeMapper_identity_table :
    spanTypeMapper .Unspecified = .Unspecified
    ∧ spanTypeMapper .Internal = .Internal
    ∧ spanTypeMapper .Server = .Server
    ∧ spanTypeMapper .Client = .Client
    ∧ spanTypeMapper .Producer = .Producer
    ∧ spanTypeMapper .Consumer = .Consumer
    ∧ Function.Bijective spanTypeMapper := by
  refine ⟨rfl, rfl, rfl, rfl, rfl, rfl, ?_⟩
  decide

/-- C10: for every starting configuration, `DatabaseCalls p` modifies
only SpanType and DatabasePlatform and leaves ExternalURL unchanged,
`ExternalCalls u` modifies only SpanType and ExternalURL and leaves
DatabasePlatform unchanged; hence mixing the two leaves a stale value
in the other field — both fields coexist in the resulting
configuration. -/
theorem option_frame_effects
    (c : spanTypeConfig) (p : DatabasePlatform) (u : ExternalURL) :
    ((DatabaseCalls p).apply c).SpanType = SpanType.Internal
    ∧ ((DatabaseCalls p).apply c).DatabasePlatform = p
    ∧ ((DatabaseCalls p).apply c).ExternalURL = c.ExternalURL
    ∧ ((ExternalCalls u).apply c).SpanType = SpanType.Server
    ∧ ((ExternalCalls u).apply c).ExternalURL = u
    ∧ ((ExternalCalls u).apply c).DatabasePlatform = c.DatabasePlatform
    ∧ applyOpts [ExternalCalls u, DatabaseCalls p]
        = { SpanType := .Internal, DatabasePlatform := p, ExternalURL := u }
    ∧ applyOpts [DatabaseCalls p, ExternalCalls u]
        = { SpanType := .Server, DatabasePlatform := p, ExternalURL := u } :=
  ⟨rfl, rfl, rfl, rfl, rfl, rfl, rfl, rfl⟩

end Signoz
